import Mathlib

/-!
Shallow embedding of the element-resolution engine of `preston_automation_v3.py`,
the coordinate store of `preston_automation_v2.py`, and the Excel processing
pipeline of `excel_processor.py` / `config.py`, together with proofs of the
specification claims about them.

External effects (screenshots, OCR output, template-correlation results, file
reads, the random generator) are modelled as explicit inputs; machine floats
of the Python code are modelled as rationals; raised exceptions are modelled
as explicit error results.
-/

namespace Preston

/-- `ElementBox` dataclass of `preston_automation_v3.py` (lines 72-82):
a rectangle `left, top, width, height` of Python ints. -/
structure ElementBox where
  left : Int
  top : Int
  width : Int
  height : Int
  deriving DecidableEq, Repr

/-- `ElementBox.center`: `(left + width // 2, top + height // 2)`;
Python `//` is floor division, hence `Int.fdiv`. -/
def ElementBox.center (b : ElementBox) : Int × Int :=
  (b.left + b.width.fdiv 2, b.top + b.height.fdiv 2)

/-- One OCR-recognized word together with its bounding box: one index `i` of
the parallel arrays `data["text"]`, `data["left"]`, ... produced by
`pytesseract.image_to_data`. -/
structure OcrWord where
  word : String
  box : ElementBox
  deriving DecidableEq, Repr

/-- Leading and trailing whitespace removal on a character list. -/
def stripList (cs : List Char) : List Char :=
  ((cs.dropWhile Char.isWhitespace).reverse.dropWhile Char.isWhitespace).reverse

/-- Python `str.strip()` (no argument form: strips whitespace). -/
def pyStrip (s : String) : String := String.mk (stripList s.toList)

/-- Python `str.lower()`, for the ASCII letters these UI labels use. -/
def pyLower (s : String) : String := String.mk (s.toList.map Char.toLower)

/-- `PrestonRPAV3.find_element_by_text` (v3 lines 110-132), with the OCR output
of the fresh screenshot passed in explicitly.  The Python loop returns the box
of the first entry `i` with `word.strip().lower() == text.lower()` and `None`
when no entry matches. -/
def find_element_by_text (data : List OcrWord) (text : String) : Option ElementBox :=
  (data.find? fun w => pyLower (pyStrip w.word) == pyLower text).map OcrWord.box

/-- The inputs `match_template` draws from the outside world in one call:
whether `cv2.imread` could read the template (and then its `shape = (h, w)`),
and the `max_val`/`max_loc` that `cv2.minMaxLoc` reports for the correlation
of the fresh screenshot with that template. -/
structure TemplateObs where
  shape : Option (Nat × Nat)
  maxVal : ℚ
  maxLoc : Int × Int
  deriving DecidableEq, Repr

/-- `PrestonRPAV3.match_template` (v3 lines 154-176): an unreadable template
yields `none`; otherwise the best match is accepted iff `max_val >= confidence`
and the box is placed at `max_loc` with the template's `w x h` dimensions. -/
def match_template (obs : TemplateObs) (confidence : ℚ) : Option ElementBox :=
  match obs.shape with
  | none => none
  | some (h, w) =>
      if obs.maxVal ≥ confidence then
        some { left := obs.maxLoc.1, top := obs.maxLoc.2, width := (w : Int), height := (h : Int) }
      else
        none

/-- Default of the `confidence` parameter of `match_template` (0.8). -/
def defaultConfidence : ℚ := 8 / 10

/-- `FORM_FILL_DELAY` from `config.py` (0.5 seconds). -/
def FORM_FILL_DELAY : ℚ := 1 / 2

/-- The fixed inter-poll delay `time.sleep(0.3)` of `wait_until_visible`. -/
def pollDelay : ℚ := 3 / 10

/-- Outcome of one `wait_until_visible` call: either the box of the first
successful poll, or the `TimeoutError("Element not visible after %.1f seconds"
% timeout)` raised when the deadline passes, carrying that duration. -/
inductive WaitResult where
  | found (box : ElementBox)
  | timedOut (duration : ℚ)
  deriving DecidableEq, Repr

/-- Number of iterations of the `while time.time() - start < timeout` loop of
`wait_until_visible`, in the timing model where poll `k` starts at elapsed
time `k * pollDelay` (the finder itself taking negligible time): exactly the
naturals `k` with `k * pollDelay < timeout`. -/
def numPolls (timeout : ℚ) : Nat := Nat.ceil (timeout / pollDelay)

/-- The polling loop of `wait_until_visible`, fuelled by `numPolls`:
`finder k` is the result of the fresh-screenshot strategy invocation at
poll `k`. -/
def waitGo (finder : Nat → Option ElementBox) (timeout : ℚ) :
    Nat → Nat → WaitResult
  | 0, _ => WaitResult.timedOut timeout
  | Nat.succ fuel, k =>
      match finder k with
      | some box => WaitResult.found box
      | none => waitGo finder timeout fuel (k + 1)

/-- `PrestonRPAV3.wait_until_visible` (v3 lines 181-196). -/
def wait_until_visible (finder : Nat → Option ElementBox) (timeout : ℚ) : WaitResult :=
  waitGo finder timeout (numPolls timeout) 0

/-- `PrestonRPAV3.wait_until_clickable` (v3 lines 198-205): delegates to
`wait_until_visible` unchanged. -/
def wait_until_clickable (finder : Nat → Option ElementBox) (timeout : ℚ) : WaitResult :=
  wait_until_visible finder timeout

/-- Coordinate mapping `dict[str, tuple[int, int]]`, as an association list
with distinct keys (Python dict iteration order is irrelevant here, only
`in`/`[]` access is used). -/
def CoordMap : Type := List (String × (Int × Int))

instance : DecidableEq CoordMap := by
  unfold CoordMap
  infer_instance

/-- `dict` key lookup (`coord_key in self.coordinates` / subscript access). -/
def coordLookup (m : CoordMap) (k : String) : Option (Int × Int) :=
  (List.find? (fun p => p.1 == k) m).map Prod.snd

/-- `PrestonRPAV2.default_coordinates` (v2 lines 51-74): the built-in fallback
coordinate map. -/
def default_coordinates : CoordMap :=
  [("hesap_search", (290, 305)),
   ("hesap_input", (1000, 497)),
   ("account_item", (990, 532)),
   ("tamam_button", (1163, 820)),
   ("date_input", (197, 335)),
   ("yenile_btn", (48, 399)),
   ("yeni_btn", (223, 448)),
   ("havale_alma", (955, 566)),
   ("banka_input", (629, 277)),
   ("cari_input", (629, 309)),
   ("belge_tarih_field", (629, 442)),
   ("valor_tarih_field", (873, 442)),
   ("tutar_input", (629, 514)),
   ("aciklama_input", (629, 538)),
   ("kaydet_btn", (919, 589)),
   ("kapat_btn", (840, 589))]

/-- The outcome of reading and parsing the coordinate file: `some m` when the
file was readable and parsed into a key-to-pair map, `none` when the read or
the parse raised (missing, unreadable or malformed file). -/
def FileParse : Type := Option CoordMap

/-- `PrestonRPAV3._load_coordinates` (v3 lines 97-105): any exception while
reading or parsing yields the EMPTY map `{}`. -/
def load_coordinates_v3 (parsed : FileParse) : CoordMap :=
  match parsed with
  | some m => m
  | none => []

/-- `PrestonRPAV2.load_coordinates` (v2 lines 28-49): any exception while
reading or parsing falls back to `default_coordinates()`. -/
def load_coordinates_v2 (parsed : FileParse) : CoordMap :=
  match parsed with
  | some m => m
  | none => default_coordinates

/-- The screen/application state `click_element` observes over time: for each
strategy, the observation its fresh screenshot yields at poll `k` of that
strategy's own wait loop (`ocr k` feeds `find_element_by_text`, `tmpl k` feeds
`match_template`). -/
structure ClickEnv where
  ocr : Nat → List OcrWord
  tmpl : Nat → TemplateObs

/-- An input-injection side effect performed by `click_element`:
a `pyautogui.click(x, y)` or a `time.sleep(d)` settle delay. -/
inductive Action where
  | click (x y : Int)
  | settle (d : ℚ)
  deriving DecidableEq, Repr

/-- What one `click_element` call did: the injected actions in order, and
`error = some msg` exactly when the call raised `RuntimeError(msg)`. -/
structure ClickResult where
  actions : List Action
  error : Option String
  deriving DecidableEq, Repr

/-- The closure `lambda: self.find_element_by_text(text)` appended for a
truthy `text` argument (v3 line 230), as a function of the poll index. -/
def textStrategy (env : ClickEnv) (text : String) : Nat → Option ElementBox :=
  fun k => find_element_by_text (env.ocr k) text

/-- The closure `lambda: self.match_template(template)` appended for a truthy
`template` argument (v3 line 232); note it uses the default confidence. -/
def templateStrategy (env : ClickEnv) : Nat → Option ElementBox :=
  fun k => match_template (env.tmpl k) defaultConfidence

/-- Python truthiness of an optional string argument (`if text:`): `None` and
the empty string are falsy. -/
def truthyOptStr : Option String → Bool
  | none => false
  | some s => s ≠ ""

/-- The `strategies` list built by `click_element` (v3 lines 228-232): the
text strategy when `text` is truthy, then the template strategy when
`template` is truthy. -/
def buildStrategies (env : ClickEnv) (text : Option String) (template : Option String) :
    List (Nat → Option ElementBox) :=
  (match text with
   | some t => if t = "" then [] else [textStrategy env t]
   | none => []) ++
  (match template with
   | some p => if p = "" then [] else [templateStrategy env]
   | none => [])

/-- The `for finder in strategies` loop (v3 lines 234-245): wait for each
strategy in order; the box of the first successful wait, or `none` when every
wait raised `TimeoutError`. -/
def runChain (strategies : List (Nat → Option ElementBox)) (timeout : ℚ) :
    Option ElementBox :=
  match strategies with
  | [] => none
  | f :: rest =>
      match wait_until_clickable f timeout with
      | WaitResult.found box => some box
      | WaitResult.timedOut _ => runChain rest timeout

/-- `PrestonRPAV3.click_element` (v3 lines 210-254).  On the first strategy
whose wait succeeds it clicks the box's center and sleeps `FORM_FILL_DELAY`;
when the chain is exhausted it clicks the stored coordinate if `coord_key` is
truthy and present, and otherwise raises
`RuntimeError("No valid strategy could click the element")`. -/
def click_element (env : ClickEnv) (text : Option String) (template : Option String)
    (coord_key : Option String) (coords : CoordMap) (timeout : ℚ) : ClickResult :=
  match runChain (buildStrategies env text template) timeout with
  | some box =>
      { actions := [Action.click box.center.1 box.center.2, Action.settle FORM_FILL_DELAY],
        error := none }
  | none =>
      if truthyOptStr coord_key then
        match coordLookup coords (coord_key.getD "") with
        | some (x, y) =>
            { actions := [Action.click x y, Action.settle FORM_FILL_DELAY], error := none }
        | none => { actions := [], error := some "No valid strategy could click the element" }
      else
        { actions := [], error := some "No valid strategy could click the element" }

/-! ### Excel processing pipeline (`excel_processor.py`, `config.py`) -/

/-- `BANK_CODES` from `config.py` (lines 46-48). -/
def BANK_CODES : List (String × String) := [("233442112", "6293986")]

/-- `CARI_CODES` from `config.py` (lines 50-52). -/
def CARI_CODES : List (String × String) := [("default", "120.12.001")]

/-- `dict.get` on a string-to-string table. -/
def dictGet (m : List (String × String)) (k : String) : Option String :=
  (List.find? (fun p => p.1 == k) m).map Prod.snd

/-- Python `a or b` on optional strings (`None`/`""` falsy). -/
def pyOrStr (a b : Option String) : Option String :=
  if truthyOptStr a then a else b

/-- `lookup_account_codes` (`excel_processor.py` lines 29-67).  `rand` is the
string `f"{random.randint(1_000_000, 9_999_999)}"` the code would draw when
the bank code is missing; an `Except.error` models the `ValueError` raise. -/
def lookup_account_codes (rand : String) (account_no : String) :
    Except String (String × String) :=
  let bank0 := dictGet BANK_CODES account_no
  let bank_code := if truthyOptStr bank0 then bank0.getD "" else rand
  let cari0 := pyOrStr (dictGet CARI_CODES account_no) (dictGet CARI_CODES "default")
  if truthyOptStr cari0 then
    Except.ok (bank_code, cari0.getD "")
  else
    Except.error ("Cari code not found for account " ++ account_no)

/-- A spreadsheet cell value as seen by `process_excel_file`: empty (`None`),
a `datetime` whose date is `d.m.y`, a string, or a number (floats modelled as
rationals). -/
inductive Cell where
  | empty
  | dateCell (d m y : Nat)
  | strCell (s : String)
  | numCell (q : ℚ)
  deriving DecidableEq, Repr

/-- Python truthiness of a cell value (`if not aciklama`). -/
def cellTruthy : Cell → Bool
  | Cell.empty => false
  | Cell.dateCell _ _ _ => true
  | Cell.strCell s => s ≠ ""
  | Cell.numCell q => q ≠ 0

/-- `str(...)` of a cell as far as the `POSH` regex is concerned.  The string
renderings of `datetime` and numeric values consist of digits, separators and
whitespace only, so they can never contain the literal `POSH`; they are
rendered as `""`, which the regex rejects exactly as it rejects the real
renderings. -/
def cellStr : Cell → String
  | Cell.strCell s => s
  | _ => ""

/-- Digit-string to number (`cs` assumed to be decimal digits). -/
def digitsVal (cs : List Char) : Nat :=
  cs.foldl (fun acc c => acc * 10 + (c.toNat - 48)) 0

/-- Split a character list on a separator character (like `str.split(sep)`:
`n` separators yield `n + 1` fields, possibly empty). -/
def splitOnChar (sep : Char) : List Char → List (List Char)
  | [] => [[]]
  | c :: rest =>
      match splitOnChar sep rest with
      | [] => [[c]]
      | h :: t => if c = sep then [] :: h :: t else (c :: h) :: t

/-- `float(str)` for unsigned plain decimal literals (digits with an optional
fractional part).  Exponent and `inf`/`nan` forms do not occur in these
workbooks and are out of the model. -/
def parsePosFloat (t : List Char) : Option ℚ :=
  match splitOnChar '.' t with
  | [a] =>
      if a ≠ [] ∧ a.all Char.isDigit then some ((digitsVal a : ℚ)) else none
  | [a, b] =>
      if (a ≠ [] ∨ b ≠ []) ∧ a.all Char.isDigit ∧ b.all Char.isDigit then
        some ((digitsVal a : ℚ) + (digitsVal b : ℚ) / (10 ^ b.length))
      else none
  | _ => none

/-- Signed `float(str)` with surrounding whitespace allowed
(see `parsePosFloat`). -/
def parseFloat (s : String) : Option ℚ :=
  match stripList s.toList with
  | '-' :: rest => (parsePosFloat rest).map Neg.neg
  | '+' :: rest => parsePosFloat rest
  | t => parsePosFloat t

/-- `float(islem_tutar)`: numbers convert directly, strings are parsed,
everything else raises (`TypeError`/`ValueError`, modelled as `none`). -/
def cellFloat : Cell → Option ℚ
  | Cell.numCell q => some q
  | Cell.strCell s => parseFloat s
  | _ => none

/-- Gregorian leap year. -/
def isLeap (y : Nat) : Bool := (y % 4 = 0 && y % 100 ≠ 0) || y % 400 = 0

/-- Days in month `m` of year `y`. -/
def daysInMonth (y m : Nat) : Nat :=
  if m = 2 then (if isLeap y then 29 else 28)
  else if m = 4 ∨ m = 6 ∨ m = 9 ∨ m = 11 then 30
  else 31

/-- Zero-pad a number to width `w` (as `strftime` does). -/
def padNum (w : Nat) (n : Nat) : String :=
  let s := Nat.repr n
  String.mk (List.replicate (w - s.length) '0') ++ s

/-- `strftime("%d.%m.%Y")` of the date `d.m.y`. -/
def formatDMY (d m y : Nat) : String :=
  padNum 2 d ++ "." ++ padNum 2 m ++ "." ++ padNum 4 y

/-- One `strptime` field of at most two digits with value in `[1, hi]`
(the `%d`/`%m` directives accept one or two digits). -/
def parseField2 (comp : List Char) (hi : Nat) : Option Nat :=
  if comp ≠ [] ∧ comp.length ≤ 2 ∧ comp.all Char.isDigit then
    let n := digitsVal comp
    if 1 ≤ n ∧ n ≤ hi then some n else none
  else none

/-- The `%Y` directive: exactly four digits. -/
def parseField4 (comp : List Char) : Option Nat :=
  if comp.length = 4 ∧ comp.all Char.isDigit then some (digitsVal comp) else none

/-- `datetime.strptime(s, "%d.%m.%Y")`, returning `(d, m, y)`;
`strptime` also validates the day against the month's length. -/
def strptimeDMY (s : String) : Option (Nat × Nat × Nat) :=
  match splitOnChar '.' s.toList with
  | [ds, ms, ys] =>
      match parseField2 ds 31, parseField2 ms 12, parseField4 ys with
      | some d, some m, some y => if d ≤ daysInMonth y m then some (d, m, y) else none
      | _, _, _ => none
  | _ => none

/-- `datetime.strptime(s, "%Y-%m-%d")`, returning `(d, m, y)`. -/
def strptimeYMD (s : String) : Option (Nat × Nat × Nat) :=
  match splitOnChar '-' s.toList with
  | [ys, ms, ds] =>
      match parseField2 ds 31, parseField2 ms 12, parseField4 ys with
      | some d, some m, some y => if d ≤ daysInMonth y m then some (d, m, y) else none
      | _, _, _ => none
  | _ => none

/-- `_parse_date` (`excel_processor.py` lines 70-81): a `datetime` is
reformatted, a string is parsed as `%d.%m.%Y` then `%Y-%m-%d` and reformatted,
anything else (or an unparsable string) yields `""`. -/
def parse_date : Cell → String
  | Cell.dateCell d m y => formatDMY d m y
  | Cell.strCell s =>
      match strptimeDMY s with
      | some (d, m, y) => formatDMY d m y
      | none =>
          match strptimeYMD s with
          | some (d, m, y) => formatDMY d m y
          | none => ""
  | _ => ""

/-- `POSH_PATTERN.search`, i.e. Python `re.search(r"POSH.*\d{5,}$", s)`:
an occurrence of `POSH`, then any characters other than newline, then at
least five digits ending at the end of the string (`$` also matches just
before one trailing newline). -/
def poshSearch (s : String) : Bool :=
  let cs := s.toList
  let e := if cs.getLast? = some '\n' then cs.length - 1 else cs.length
  (List.range cs.length).any fun i =>
    ((cs.drop i).take 4 = ['P', 'O', 'S', 'H']) &&
    i + 9 ≤ e &&
    ((cs.drop (i + 4)).take (e - 5 - (i + 4))).all (· ≠ '\n') &&
    ((cs.drop (e - 5)).take 5).all Char.isDigit

/-- Per-date accumulator `{"toplam_tutar": ..., "islem_sayisi": ...}`:
running total and count. -/
def GroupData : Type := ℚ × Nat

instance : DecidableEq GroupData := by
  unfold GroupData
  infer_instance

/-- `groups[tarih]` update: add `amount` to the date's running total and bump
its count, appending a fresh entry for a new date (Python dicts preserve
insertion order; the order is irrelevant because the result is sorted). -/
def addToGroups : List (String × GroupData) → String → ℚ → List (String × GroupData)
  | [], tarih, amount => [(tarih, amount, 1)]
  | (k, tot, cnt) :: rest, tarih, amount =>
      if k = tarih then (k, tot + amount, cnt + 1) :: rest
      else (k, tot, cnt) :: addToGroups rest tarih amount

/-- The body of the `for row in ws.iter_rows(min_row=23, ...)` loop
(`excel_processor.py` lines 107-123): rows shorter than five cells are
skipped; the description must be truthy and match the POSH pattern; the date
must parse; the amount must convert to float; then the row is added to its
date group. -/
def stepRow (groups : List (String × GroupData)) (row : List Cell) :
    List (String × GroupData) :=
  match row with
  | islem_tarihi :: _ :: aciklama :: islem_tutar :: _ :: _ =>
      if ¬(cellTruthy aciklama ∧ poshSearch (cellStr aciklama)) then groups
      else
        let tarih := parse_date islem_tarihi
        if tarih = "" then groups
        else
          match cellFloat islem_tutar with
          | none => groups
          | some amount => addToGroups groups tarih amount
  | _ => groups

/-- Round half to even (Python 3 `round` on ties), as an integer. -/
def roundHalfEven (x : ℚ) : Int :=
  let f := Int.floor x
  let frac := x - (f : ℚ)
  if frac < 1 / 2 then f
  else if 1 / 2 < frac then f + 1
  else if f % 2 = 0 then f else f + 1

/-- `round(x, 2)`. -/
def round2 (x : ℚ) : ℚ := (roundHalfEven (x * 100) : ℚ) / 100

/-- One element of the list `process_excel_file` returns. -/
structure Record where
  hesap_no : String
  tarih : String
  toplam_tutar : ℚ
  islem_sayisi : Nat
  aciklama : String
  deriving DecidableEq, Repr

/-- Lexicographic comparison of character lists by code point: the order
Python string comparison uses. -/
def listCharLe : List Char → List Char → Bool
  | [], _ => true
  | _ :: _, [] => false
  | a :: as, b :: bs =>
      if a.toNat < b.toNat then true
      else if b.toNat < a.toNat then false
      else listCharLe as bs

/-- Python `<=` on strings: lexicographic by code point. -/
def strLe (a b : String) : Bool := listCharLe a.toList b.toList

/-- `sorted(groups.items())`: ascending by the date string (keys are distinct,
so the tuple comparison never reaches the values). -/
def sortGroups (gs : List (String × GroupData)) : List (String × GroupData) :=
  List.insertionSort (fun a b => strLe a.1 b.1 = true) gs

/-- `process_excel_file` (`excel_processor.py` lines 84-136).  `account_no`
is the string rendering of cell B7 (`""` when the cell is empty/falsy, which
raises `ValueError`); `rows` are the worksheet rows from row 23 on. -/
def process_excel_file (account_no : String) (rows : List (List Cell)) :
    Except String (List Record) :=
  if account_no = "" then
    Except.error "Account number (B7) not found in Excel file"
  else
    let groups := rows.foldl stepRow []
    Except.ok ((sortGroups groups).map fun p =>
      { hesap_no := account_no, tarih := p.1, toplam_tutar := round2 p.2.1,
        islem_sayisi := p.2.2, aciklama := "GÜNLÜK POS TAHSİLATI" })

/-- The date strings of the records of a `process_excel_file` result, in
order (`[]` for the error case). -/
def datesOf (r : Except String (List Record)) : List String :=
  match r with
  | Except.ok l => l.map Record.tarih
  | Except.error _ => []

/-- Chronological key of a `"DD.MM.YYYY"` string: `y * 10000 + m * 100 + d`,
so `chronoVal a < chronoVal b` says `a` is an earlier calendar day than `b`. -/
def chronoVal (s : String) : Nat :=
  match strptimeDMY s with
  | some (d, m, y) => y * 10000 + m * 100 + d
  | none => 0

/-! ### Concrete inputs used in witnesses and counterexamples -/

/-- A sample OCR bounding box. -/
def boxA : ElementBox := ⟨10, 20, 30, 40⟩

/-- A second, distinct sample box. -/
def boxB : ElementBox := ⟨1, 1, 2, 2⟩

/-- A degenerate zero-area box, as an OCR engine could report it. -/
def zeroBox : ElementBox := ⟨5, 5, 0, 0⟩

/-- A screen on which no strategy ever finds anything: empty OCR output and
an unreadable template. -/
def envAllFail : ClickEnv := ⟨fun _ => [], fun _ => ⟨none, 0, (0, 0)⟩⟩

/-- A screen on which OCR always sees the word `Kaydet` at `boxA`. -/
def envKaydet : ClickEnv := ⟨fun _ => [⟨"Kaydet", boxA⟩], fun _ => ⟨none, 0, (0, 0)⟩⟩

/-- A POS transaction row dated January 2, 2024 with amount 100. -/
def posRowJan2 : List Cell :=
  [Cell.dateCell 2 1 2024, Cell.empty, Cell.strCell "POSH AAA 12345",
   Cell.numCell 100, Cell.empty]

/-- A POS transaction row dated February 1, 2024 with amount 50. -/
def posRowFeb1 : List Cell :=
  [Cell.dateCell 1 2 2024, Cell.empty, Cell.strCell "POSH BBB 67890",
   Cell.numCell 50, Cell.empty]

/-! ### Helper lemmas about the wait engine and the strategy chain -/

theorem pollDelay_pos : 0 < pollDelay := by norm_num [pollDelay]

theorem waitGo_eq_timedOut (finder : Nat → Option ElementBox) (timeout : ℚ) :
    ∀ fuel k0, (∀ j, j < fuel → finder (k0 + j) = none) →
      waitGo finder timeout fuel k0 = WaitResult.timedOut timeout := by
  intro fuel
  induction fuel with
  | zero => intro k0 _; rfl
  | succ n ih =>
      intro k0 h
      have h0 : finder k0 = none := by simpa using h 0 (Nat.succ_pos n)
      have hstep : waitGo finder timeout (n + 1) k0 = waitGo finder timeout n (k0 + 1) := by
        simp [waitGo, h0]
      rw [hstep]
      refine ih (k0 + 1) fun j hj => ?_
      have h2 := h (j + 1) (Nat.succ_lt_succ hj)
      have e : k0 + (j + 1) = k0 + 1 + j := by omega
      rw [e] at h2
      exact h2

theorem waitGo_eq_found (finder : Nat → Option ElementBox) (timeout : ℚ) (b : ElementBox) :
    ∀ i fuel k0, i < fuel → finder (k0 + i) = some b →
      (∀ j, j < i → finder (k0 + j) = none) →
      waitGo finder timeout fuel k0 = WaitResult.found b := by
  intro i
  induction i with
  | zero =>
      intro fuel k0 hf hsome _
      cases fuel with
      | zero => exact absurd hf (Nat.not_lt_zero _)
      | succ n =>
          have h0 : finder k0 = some b := by simpa using hsome
          simp [waitGo, h0]
  | succ i ih =>
      intro fuel k0 hf hsome hnone
      cases fuel with
      | zero => exact absurd hf (Nat.not_lt_zero _)
      | succ n =>
          have h0 : finder k0 = none := by simpa using hnone 0 (Nat.succ_pos i)
          have hstep : waitGo finder timeout (n + 1) k0 = waitGo finder timeout n (k0 + 1) := by
            simp [waitGo, h0]
          rw [hstep]
          refine ih n (k0 + 1) (Nat.lt_of_succ_lt_succ hf) ?_ ?_
          · rw [show k0 + 1 + i = k0 + (i + 1) by omega]
            exact hsome
          · intro j hj
            rw [show k0 + 1 + j = k0 + (j + 1) by omega]
            exact hnone (j + 1) (Nat.succ_lt_succ hj)

theorem waitGo_found_or_timedOut (finder : Nat → Option ElementBox) (timeout : ℚ) :
    ∀ fuel k0, (∃ b, waitGo finder timeout fuel k0 = WaitResult.found b) ∨
      waitGo finder timeout fuel k0 = WaitResult.timedOut timeout := by
  intro fuel
  induction fuel with
  | zero => intro k0; exact Or.inr rfl
  | succ n ih =>
      intro k0
      cases hf : finder k0 with
      | some b => exact Or.inl ⟨b, by simp [waitGo, hf]⟩
      | none =>
          have hstep : waitGo finder timeout (n + 1) k0 = waitGo finder timeout n (k0 + 1) := by
            simp [waitGo, hf]
          rw [hstep]
          exact ih (k0 + 1)

theorem wait_until_visible_eq_found (finder : Nat → Option ElementBox) (timeout : ℚ)
    (b : ElementBox) (k : Nat) (hk : (k : ℚ) * pollDelay < timeout)
    (hsome : finder k = some b) (hnone : ∀ j, j < k → finder j = none) :
    wait_until_visible finder timeout = WaitResult.found b := by
  have hk' : k < numPolls timeout := by
    rw [numPolls, Nat.lt_ceil]
    exact (lt_div_iff₀ pollDelay_pos).mpr hk
  exact waitGo_eq_found finder timeout b k (numPolls timeout) 0 hk'
    (by simpa using hsome) (fun j hj => by simpa using hnone j hj)

theorem wait_until_visible_eq_timedOut (finder : Nat → Option ElementBox) (timeout : ℚ)
    (h : ∀ n : Nat, (n : ℚ) * pollDelay < timeout → finder n = none) :
    wait_until_visible finder timeout = WaitResult.timedOut timeout := by
  refine waitGo_eq_timedOut finder timeout (numPolls timeout) 0 fun j hj => ?_
  have hj' : (j : ℚ) * pollDelay < timeout := by
    rw [numPolls, Nat.lt_ceil] at hj
    exact (lt_div_iff₀ pollDelay_pos).mp hj
  simpa using h j hj'

theorem runChain_eq_none (timeout : ℚ) :
    ∀ strategies : List (Nat → Option ElementBox),
      (∀ f ∈ strategies, ∀ n, f n = none) → runChain strategies timeout = none := by
  intro strategies
  induction strategies with
  | nil => intro _; rfl
  | cons f rest ih =>
      intro h
      have hw : wait_until_clickable f timeout = WaitResult.timedOut timeout := by
        rw [wait_until_clickable]
        exact wait_until_visible_eq_timedOut f timeout
          (fun n _ => h f (List.mem_cons_self f rest) n)
      simp only [runChain, hw]
      exact ih fun g hg n => h g (List.mem_cons_of_mem f hg) n

theorem buildStrategies_all_none (env : ClickEnv) (text template : Option String)
    (htext : ∀ t, text = some t → ∀ n, find_element_by_text (env.ocr n) t = none)
    (htmpl : ∀ n, match_template (env.tmpl n) defaultConfidence = none) :
    ∀ f ∈ buildStrategies env text template, ∀ n, f n = none := by
  intro f hf n
  unfold buildStrategies at hf
  rcases List.mem_append.mp hf with h1 | h2
  · cases text with
    | none => simp at h1
    | some t =>
        by_cases ht : t = ""
        · simp [ht] at h1
        · simp [ht] at h1
          rw [h1]
          exact htext t rfl n
  · cases template with
    | none => simp at h2
    | some p =>
        by_cases hp : p = ""
        · simp [hp] at h2
        · simp [hp] at h2
          rw [h2]
          exact htmpl n

/-! ### Claim theorems -/

/-- C1: when every dynamic strategy in the chain reports not-found on every
poll within its timeout and a coordinate fallback key is supplied and present
in the coordinate store, `click_element` clicks exactly the stored `(x, y)`
position directly (the only click it performs, with no strategy verification)
and returns successfully. -/
theorem click_element_coordinate_fallback (env : ClickEnv)
    (text template : Option String) (k : String) (coords : CoordMap) (timeout : ℚ)
    (x y : Int)
    (htext : ∀ t, text = some t → ∀ n, find_element_by_text (env.ocr n) t = none)
    (htmpl : ∀ n, match_template (env.tmpl n) defaultConfidence = none)
    (hk : k ≠ "") (hstore : coordLookup coords k = some (x, y)) :
    click_element env text template (some k) coords timeout =
      { actions := [Action.click x y, Action.settle FORM_FILL_DELAY], error := none } := by
  have hchain : runChain (buildStrategies env text template) timeout = none :=
    runChain_eq_none timeout _ (buildStrategies_all_none env text template htext htmpl)
  simp [click_element, hchain, truthyOptStr, hk, hstore]

/-- C1 witness: all strategies exhausted on a blank screen, the key
`kaydet_btn` present in the default store at `(919, 589)`. -/
theorem click_element_coordinate_fallback_witness :
    ("kaydet_btn" : String) ≠ "" ∧
    coordLookup default_coordinates "kaydet_btn" = some (919, 589) ∧
    click_element envAllFail (some "Kaydet") (some "save.png") (some "kaydet_btn")
        default_coordinates 5 =
      { actions := [Action.click 919 589, Action.settle FORM_FILL_DELAY], error := none } :=
  ⟨by decide, by decide,
    click_element_coordinate_fallback envAllFail (some "Kaydet") (some "save.png")
      "kaydet_btn" default_coordinates 5 919 589
      (fun t ht n => by cases ht; rfl) (fun n => rfl) (by decide) (by decide)⟩

/-- C2: when every dynamic strategy fails and no coordinate fallback is
available (`coord_key` is `None` or empty, or absent from the store),
`click_element` raises `RuntimeError` — the `ElementNotResolved` outcome —
and performs no click at all. -/
theorem click_element_no_fallback_fails (env : ClickEnv)
    (text template coord_key : Option String) (coords : CoordMap) (timeout : ℚ)
    (htext : ∀ t, text = some t → ∀ n, find_element_by_text (env.ocr n) t = none)
    (htmpl : ∀ n, match_template (env.tmpl n) defaultConfidence = none)
    (hfb : ∀ k, coord_key = some k → k ≠ "" → coordLookup coords k = none) :
    click_element env text template coord_key coords timeout =
      { actions := [], error := some "No valid strategy could click the element" } := by
  have hchain : runChain (buildStrategies env text template) timeout = none :=
    runChain_eq_none timeout _ (buildStrategies_all_none env text template htext htmpl)
  cases coord_key with
  | none => simp [click_element, hchain, truthyOptStr]
  | some k =>
      by_cases hk : k = ""
      · simp [click_element, hchain, truthyOptStr, hk]
      · have hnone := hfb k rfl hk
        simp [click_element, hchain, truthyOptStr, hk, hnone]

/-- C2 witness: all strategies exhausted on a blank screen and a fallback key
absent from the store; the call fails with the `RuntimeError` message and an
empty action list. -/
theorem click_element_no_fallback_fails_witness :
    coordLookup default_coordinates "missing_key" = none ∧
    click_element envAllFail (some "Kaydet") (some "save.png") (some "missing_key")
        default_coordinates 5 =
      { actions := [], error := some "No valid strategy could click the element" } :=
  ⟨by decide,
    click_element_no_fallback_fails envAllFail (some "Kaydet") (some "save.png")
      (some "missing_key") default_coordinates 5
      (fun t ht n => by cases ht; rfl) (fun n => rfl)
      (fun k hk _ => by cases hk; decide)⟩

/-- C3: `click_element` builds the strategy chain from every non-empty field
actually supplied, text before template (the only two dynamic strategy fields
its signature has), and on the first strategy whose wait succeeds it clicks
the resolved box's center, sleeps the fixed `FORM_FILL_DELAY` settle delay and
returns successfully — the conclusion of the first-success cases holds for
every state of the remaining strategies, so no further strategy is tried. -/
theorem click_element_strategy_chain (env : ClickEnv) (t tp : String)
    (ck : Option String) (coords : CoordMap) (timeout : ℚ)
    (ht : t ≠ "") (htp : tp ≠ "") :
    (buildStrategies env (some t) (some tp) = [textStrategy env t, templateStrategy env])
    ∧ (buildStrategies env (some t) none = [textStrategy env t])
    ∧ (buildStrategies env none (some tp) = [templateStrategy env])
    ∧ (buildStrategies env none none = [])
    ∧ (∀ b, wait_until_clickable (textStrategy env t) timeout = WaitResult.found b →
        click_element env (some t) (some tp) ck coords timeout =
          { actions := [Action.click b.center.1 b.center.2, Action.settle FORM_FILL_DELAY],
            error := none })
    ∧ (∀ b, wait_until_clickable (textStrategy env t) timeout = WaitResult.timedOut timeout →
        wait_until_clickable (templateStrategy env) timeout = WaitResult.found b →
        click_element env (some t) (some tp) ck coords timeout =
          { actions := [Action.click b.center.1 b.center.2, Action.settle FORM_FILL_DELAY],
            error := none }) := by
  refine ⟨by simp [buildStrategies, ht, htp], by simp [buildStrategies, ht],
    by simp [buildStrategies, htp], rfl, ?_, ?_⟩
  · intro b hb
    have hchain : runChain (buildStrategies env (some t) (some tp)) timeout = some b := by
      simp [buildStrategies, ht, htp, runChain, hb]
    simp [click_element, hchain]
  · intro b h1 h2
    have hchain : runChain (buildStrategies env (some t) (some tp)) timeout = some b := by
      simp [buildStrategies, ht, htp, runChain, h1, h2]
    simp [click_element, hchain]

/-- C3 witness: on a screen whose OCR always shows `Kaydet` at `boxA`, the
text strategy resolves on its first poll and `click_element` clicks the box
center `(25, 40)` and settles, with the template strategy never consulted. -/
theorem click_element_strategy_chain_witness :
    ("Kaydet" : String) ≠ "" ∧
    wait_until_clickable (textStrategy envKaydet "Kaydet") 1 = WaitResult.found boxA ∧
    click_element envKaydet (some "Kaydet") (some "save.png") none default_coordinates 1 =
      { actions := [Action.click 25 40, Action.settle FORM_FILL_DELAY], error := none } := by
  have hw : wait_until_clickable (textStrategy envKaydet "Kaydet") 1 = WaitResult.found boxA :=
    wait_until_visible_eq_found (textStrategy envKaydet "Kaydet") 1 boxA 0
      (by norm_num [pollDelay]) (by decide) (fun j hj => absurd hj (Nat.not_lt_zero j))
  exact ⟨by decide, hw,
    (click_element_strategy_chain envKaydet "Kaydet" "save.png" none default_coordinates 1
      (by decide) (by decide)).2.2.2.2.1 boxA hw⟩

/-- C6: `wait_until_visible` polls the strategy with the fixed 0.3-second
inter-poll delay; it returns the box of the first successful poll made before
`timeout` seconds of wall-clock time elapse, and when every poll inside the
window fails it raises the `TimeoutError` — the `NotFound` condition — that
carries the elapsed wall-clock budget; these two outcomes are exhaustive, and
`wait_until_clickable` is the identical function. -/
theorem wait_engine_contract :
    (∀ finder (timeout : ℚ) (b : ElementBox) (k : Nat), (k : ℚ) * pollDelay < timeout →
       finder k = some b → (∀ j, j < k → finder j = none) →
       wait_until_visible finder timeout = WaitResult.found b)
    ∧ (∀ finder (timeout : ℚ), (∀ n : Nat, (n : ℚ) * pollDelay < timeout → finder n = none) →
       wait_until_visible finder timeout = WaitResult.timedOut timeout)
    ∧ (∀ finder (timeout : ℚ),
       wait_until_clickable finder timeout = wait_until_visible finder timeout)
    ∧ (∀ finder (timeout : ℚ),
       (∃ b, wait_until_visible finder timeout = WaitResult.found b) ∨
         wait_until_visible finder timeout = WaitResult.timedOut timeout)
    ∧ pollDelay = 3 / 10 :=
  ⟨wait_until_visible_eq_found, wait_until_visible_eq_timedOut, fun _ _ => rfl,
    fun finder timeout => waitGo_found_or_timedOut finder timeout (numPolls timeout) 0, rfl⟩

/-- C6 witness: a strategy that succeeds on its third poll (index 2) within a
1-second timeout yields that box on the first successful poll. -/
theorem wait_engine_contract_witness :
    (((2 : Nat) : ℚ) * pollDelay < 1) ∧
    wait_until_visible (fun n => if n = 2 then some boxA else none) 1 =
      WaitResult.found boxA :=
  ⟨by norm_num [pollDelay],
    wait_engine_contract.1 (fun n => if n = 2 then some boxA else none) 1 boxA 2
      (by norm_num [pollDelay]) (by decide) (by decide)⟩

/-- C7: `match_template` accepts the best match iff its correlation score is
at least the caller-supplied confidence threshold (default `0.8`), so a score
exactly at the threshold is accepted and a score below it is rejected; a
successful match is a box with exactly the template's `w x h` dimensions at
the best-match location; an unreadable template yields `none`. -/
theorem match_template_contract :
    (∀ obs (c : ℚ), obs.shape = none → match_template obs c = none)
    ∧ (∀ obs (c : ℚ) (h w : Nat), obs.shape = some (h, w) → c ≤ obs.maxVal →
        match_template obs c =
          some { left := obs.maxLoc.1, top := obs.maxLoc.2,
                 width := (w : Int), height := (h : Int) })
    ∧ (∀ obs (c : ℚ) (h w : Nat), obs.shape = some (h, w) → obs.maxVal < c →
        match_template obs c = none)
    ∧ defaultConfidence = 8 / 10
    ∧ (∀ (h w : Nat) (loc : Int × Int),
        match_template ⟨some (h, w), 8 / 10, loc⟩ defaultConfidence =
          some { left := loc.1, top := loc.2, width := (w : Int), height := (h : Int) })
    ∧ (∀ (h w : Nat) (loc : Int × Int),
        match_template ⟨some (h, w), 79 / 100, loc⟩ defaultConfidence = none) := by
  refine ⟨?_, ?_, ?_, rfl, ?_, ?_⟩
  · intro obs c hs
    simp [match_template, hs]
  · intro obs c h w hs hc
    simp [match_template, hs, hc]
  · intro obs c h w hs hc
    simp [match_template, hs, not_le.mpr hc]
  · intro h w loc
    norm_num [match_template, defaultConfidence]
  · intro h w loc
    norm_num [match_template, defaultConfidence]

/-- C7 witness: a readable 34x12 template whose best score is exactly the 0.8
default threshold is accepted at the best-match location with the template's
dimensions. -/
theorem match_template_contract_witness :
    ((8 : ℚ) / 10 ≤ (8 : ℚ) / 10) ∧
    match_template ⟨some (12, 34), 8 / 10, (5, 6)⟩ (8 / 10) =
      some { left := 5, top := 6, width := 34, height := 12 } :=
  ⟨le_refl _,
    match_template_contract.2.1 ⟨some (12, 34), 8 / 10, (5, 6)⟩ (8 / 10) 12 34 rfl
      (le_refl _)⟩

/-- C8: the text strategy returns the box of the first OCR word (in scan
order) whose trimmed, case-folded text equals the case-folded target, finds
nothing when no word matches, and in particular `" Kaydet "`, `"KAYDET"` and
`"kaydet"` all match the target `"Kaydet"`, the first match winning on
duplicates. -/
theorem find_element_by_text_first_match :
    (∀ (pre post : List OcrWord) (w : OcrWord) (t : String),
        (∀ p ∈ pre, pyLower (pyStrip p.word) ≠ pyLower t) →
        pyLower (pyStrip w.word) = pyLower t →
        find_element_by_text (pre ++ w :: post) t = some w.box)
    ∧ (∀ (data : List OcrWord) (t : String),
        (∀ p ∈ data, pyLower (pyStrip p.word) ≠ pyLower t) →
        find_element_by_text data t = none)
    ∧ find_element_by_text [⟨" Kaydet ", boxA⟩] "Kaydet" = some boxA
    ∧ find_element_by_text [⟨"KAYDET", boxA⟩] "Kaydet" = some boxA
    ∧ find_element_by_text [⟨"kaydet", boxA⟩] "Kaydet" = some boxA
    ∧ find_element_by_text [⟨"Kaydet", boxA⟩, ⟨"kaydet", boxB⟩] "Kaydet" = some boxA := by
  refine ⟨?_, ?_, by decide, by decide, by decide, by decide⟩
  · intro pre post w t hpre hw
    induction pre with
    | nil =>
        have hp : (pyLower (pyStrip w.word) == pyLower t) = true := by
          rw [beq_iff_eq]
          exact hw
        simp [find_element_by_text, List.find?_cons_of_pos, hp]
    | cons q pre ih =>
        have hq : (pyLower (pyStrip q.word) == pyLower t) = false := by
          rw [beq_eq_false_iff_ne]
          exact hpre q (List.mem_cons_self q pre)
        have step : find_element_by_text ((q :: pre) ++ w :: post) t =
            find_element_by_text (pre ++ w :: post) t := by
          simp [find_element_by_text, List.find?_cons, hq]
        rw [step]
        exact ih fun p hp => hpre p (List.mem_cons_of_mem q hp)
  · intro data t h
    have hfind : List.find? (fun w => pyLower (pyStrip w.word) == pyLower t) data = none :=
      List.find?_eq_none.mpr fun p hp => by simpa using h p hp
    simp [find_element_by_text, hfind]

/-- C8 witness: the word `" Kaydet "` heads the OCR list and matches the
target `"Kaydet"`, so its box is returned. -/
theorem find_element_by_text_first_match_witness :
    (pyLower (pyStrip " Kaydet ") = pyLower "Kaydet") ∧
    find_element_by_text ([] ++ (⟨" Kaydet ", boxA⟩ : OcrWord) :: [⟨"diger", boxB⟩])
        "Kaydet" = some boxA :=
  ⟨by decide,
    find_element_by_text_first_match.1 [] [⟨"diger", boxB⟩] ⟨" Kaydet ", boxA⟩ "Kaydet"
      (fun p hp => absurd hp (List.not_mem_nil p)) (by decide)⟩

/-- C4 counterexample: the text strategy performs no positivity check on the
OCR-reported dimensions — an OCR word with a zero-area box is returned as
"found" exactly as reported, refuting the claimed `width > 0 ∧ height > 0`
invariant. -/
theorem zero_area_box_found_counterexample :
    find_element_by_text [⟨"Kaydet", zeroBox⟩] "Kaydet" = some zeroBox ∧
    zeroBox.width = 0 ∧ zeroBox.height = 0 :=
  ⟨by decide, rfl, rfl⟩

/-- C4 amended: a box returned by a successful strategy carries exactly the
dimensions of its source (the OCR word box, or the template image), with no
positivity check of its own; the `width > 0 ∧ height > 0` invariant therefore
holds precisely when every OCR-reported box and the template's dimensions are
positive. -/
theorem strategy_box_dimensions :
    (∀ (data : List OcrWord) (t : String) (b : ElementBox),
        (∀ p ∈ data, 0 < p.box.width ∧ 0 < p.box.height) →
        find_element_by_text data t = some b → 0 < b.width ∧ 0 < b.height)
    ∧ (∀ obs (c : ℚ) (h w : Nat) (b : ElementBox), obs.shape = some (h, w) →
        0 < h → 0 < w → match_template obs c = some b →
        0 < b.width ∧ 0 < b.height) := by
  constructor
  · intro data t b hpos hfind
    unfold find_element_by_text at hfind
    cases hfp : List.find? (fun w => pyLower (pyStrip w.word) == pyLower t) data with
    | none => rw [hfp] at hfind; simp at hfind
    | some p =>
        rw [hfp] at hfind
        simp at hfind
        subst hfind
        exact hpos p (List.mem_of_find?_eq_some hfp)
  · intro obs c h w b hs hh hw hm
    unfold match_template at hm
    rw [hs] at hm
    dsimp only at hm
    by_cases hc : obs.maxVal ≥ c
    · rw [if_pos hc] at hm
      injection hm with hb
      subst hb
      refine ⟨?_, ?_⟩
      · show (0 : Int) < (w : Int)
        exact_mod_cast hw
      · show (0 : Int) < (h : Int)
        exact_mod_cast hh
    · rw [if_neg hc] at hm
      exact absurd hm (by simp)

/-- C4 amended witness: with every OCR box positive, the returned box has
positive dimensions. -/
theorem strategy_box_dimensions_witness :
    0 < boxA.width ∧ 0 < boxA.height :=
  strategy_box_dimensions.1 [⟨"Kaydet", boxA⟩] "Kaydet" boxA (by decide) (by decide)

/-- C5 counterexample: v3's `_load_coordinates` of a missing/unreadable/
malformed file returns the EMPTY map, which is not the built-in default map
and does not contain the key `kaydet_btn`. -/
theorem load_coordinates_v3_counterexample :
    load_coordinates_v3 none = [] ∧
    coordLookup (load_coordinates_v3 none) "kaydet_btn" = none ∧
    load_coordinates_v3 none ≠ default_coordinates :=
  ⟨rfl, rfl, by decide⟩

/-- C5 amended: neither loader ever raises (both are total functions of the
file-parse outcome); on a readable, well-formed file both return the parsed
map; on a missing/unreadable/malformed file v2's `load_coordinates` returns
the built-in default map (which contains `kaydet_btn`), while v3's
`_load_coordinates` returns the empty map instead. -/
theorem load_coordinates_fallback_behaviour :
    (∀ m, load_coordinates_v2 (some m) = m)
    ∧ (∀ m, load_coordinates_v3 (some m) = m)
    ∧ load_coordinates_v2 none = default_coordinates
    ∧ coordLookup (load_coordinates_v2 none) "kaydet_btn" = some (919, 589)
    ∧ load_coordinates_v3 none = [] :=
  ⟨fun _ => rfl, fun _ => rfl, rfl, by decide, rfl⟩

theorem dictGet_singleton (k v account : String) :
    dictGet [(k, v)] account = if k = account then some v else none := by
  unfold dictGet
  by_cases h : k = account
  · rw [List.find?_cons_of_pos]
    · simp [h]
    · simp [h]
  · rw [List.find?_cons_of_neg]
    · simp [h]
    · simp [h]

/-- C9: under the shipped `config.py` tables, `lookup_account_codes` never
raises: because `CARI_CODES` has a `"default"` entry, the documented
`ValueError` branch is unreachable, every call returns the mapped-or-default
cari code `120.12.001`, the known account `233442112` gets its mapped bank
code `6293986`, and any other account gets the randomly generated code
(`rand` stands for the drawn 7-digit `randint` rendering). -/
theorem lookup_account_codes_never_raises (rand account : String) :
    lookup_account_codes rand account =
      Except.ok ((if account = "233442112" then "6293986" else rand), "120.12.001") := by
  simp only [lookup_account_codes, BANK_CODES, CARI_CODES, dictGet_singleton]
  by_cases h1 : ("233442112" : String) = account
  · simp [truthyOptStr, pyOrStr, ← h1]
  · have h1' : ¬(account = "233442112") := fun e => h1 e.symm
    by_cases h2 : ("default" : String) = account
    · simp [truthyOptStr, pyOrStr, ← h2]
    · simp [truthyOptStr, pyOrStr, h1, h2, h1']

theorem listCharLe_total : ∀ as bs, listCharLe as bs = true ∨ listCharLe bs as = true := by
  intro as
  induction as with
  | nil => intro bs; exact Or.inl rfl
  | cons a as ih =>
      intro bs
      cases bs with
      | nil => exact Or.inr rfl
      | cons b bs =>
          by_cases h1 : a.toNat < b.toNat
          · exact Or.inl (by simp [listCharLe, h1])
          · by_cases h2 : b.toNat < a.toNat
            · exact Or.inr (by simp [listCharLe, h2])
            · rcases ih bs with h | h
              · exact Or.inl (by simp [listCharLe, h1, h2, h])
              · exact Or.inr (by simp [listCharLe, h1, h2, h])

theorem listCharLe_trans : ∀ as bs cs, listCharLe as bs = true →
    listCharLe bs cs = true → listCharLe as cs = true := by
  intro as
  induction as with
  | nil => intro bs cs _ _; rfl
  | cons a as ih =>
      intro bs cs h1 h2
      cases bs with
      | nil => simp [listCharLe] at h1
      | cons b bs =>
          cases cs with
          | nil => simp [listCharLe] at h2
          | cons c cs =>
              by_cases hab : a.toNat < b.toNat
              · by_cases hbc : b.toNat < c.toNat
                · simp [listCharLe, show a.toNat < c.toNat by omega]
                · by_cases hcb : c.toNat < b.toNat
                  · simp [listCharLe, hbc, hcb] at h2
                  · simp [listCharLe, show a.toNat < c.toNat by omega]
              · by_cases hba : b.toNat < a.toNat
                · simp [listCharLe, hab, hba] at h1
                · by_cases hbc : b.toNat < c.toNat
                  · simp [listCharLe, show a.toNat < c.toNat by omega]
                  · by_cases hcb : c.toNat < b.toNat
                    · simp [listCharLe, hbc, hcb] at h2
                    · have h1' : listCharLe as bs = true := by
                        simpa [listCharLe, hab, hba] using h1
                      have h2' : listCharLe bs cs = true := by
                        simpa [listCharLe, hbc, hcb] using h2
                      simp [listCharLe, show ¬a.toNat < c.toNat by omega,
                        show ¬c.toNat < a.toNat by omega]
                      exact ih bs cs h1' h2'

/-- C10: the record list of `process_excel_file` is ordered by the bare
lexicographic (code-point) comparison of the formatted `"DD.MM.YYYY"` strings
— day field first — so transactions spanning several months can come out in
non-chronological order: January 2, 2024 (formatted `"02.01.2024"`) is listed
after February 1, 2024 (formatted `"01.02.2024"`) although it is the earlier
day. -/
theorem process_excel_file_lexicographic_date_order :
    (∀ (acc : String) (rows : List (List Cell)),
        List.Sorted (fun a b => strLe a b = true) (datesOf (process_excel_file acc rows)))
    ∧ datesOf (process_excel_file "233442112" [posRowJan2, posRowFeb1]) =
        ["01.02.2024", "02.01.2024"]
    ∧ chronoVal "02.01.2024" < chronoVal "01.02.2024" := by
  refine ⟨?_, by decide, by decide⟩
  intro acc rows
  by_cases h : acc = ""
  · simp [process_excel_file, h, datesOf]
  · haveI hTot : IsTotal (String × GroupData) (fun a b => strLe a.1 b.1 = true) :=
      ⟨fun a b => listCharLe_total _ _⟩
    haveI hTrans : IsTrans (String × GroupData) (fun a b => strLe a.1 b.1 = true) :=
      ⟨fun a b c hx hy => listCharLe_trans _ _ _ hx hy⟩
    have hs : List.Sorted (fun a b : String × GroupData => strLe a.1 b.1 = true)
        (sortGroups (List.foldl stepRow [] rows)) :=
      List.sorted_insertionSort _ _
    unfold process_excel_file
    rw [if_neg h]
    unfold datesOf
    dsimp only
    rw [List.map_map]
    unfold List.Sorted
    rw [List.pairwise_map]
    exact hs

end Preston
